import Mathlib

/-!
Verification of the AI Clipper backend (`src/main.py`, `src/schemas.py`).

The embedding models:
* pydantic schemas as Lean structures (floats become exact rationals `ℚ`,
  datetimes become an abstract `Nat` clock value passed to each handler);
* the MongoDB collection `videojob` as an association list from numeric
  keys to `VideoJob` documents;
* bson `ObjectId` (third-party, not in the repository) abstractly: a string
  is a well-formed identifier iff it is a decimal numeral, `ObjectId(s)`
  is `oidParse`, `str(oid)` is `oidPrint`, and freshly generated ids are
  numerals strictly larger than every key already in the store;
* pydantic's `HttpUrl` validator (third-party) as `isHttpUrl`: the string
  must carry an `http://` or `https://` scheme followed by a nonempty rest;
* each FastAPI handler as a pure function `Store → ... → Response α × Store`,
  where `Response.httpError` is a raised `HTTPException` and
  `Response.fault` is an exception that no handler catches (an unhandled
  fault surfacing as a 500 from the framework).
-/

namespace Clipper

/-- From `schemas.py`: `DetectedMoment` (floats modelled as `ℚ`). -/
structure DetectedMoment where
  start_sec : ℚ
  end_sec : ℚ
  label : String
  confidence : ℚ := mkRat 4 5
deriving DecidableEq

/-- From `schemas.py`: `VideoJob` (the `HttpUrl` field is kept as the raw
string; validity is checked by `isHttpUrl` at construction sites, mirroring
pydantic validation on instantiation). -/
structure VideoJob where
  youtube_url : String
  title : Option String := none
  author : Option String := none
  thumbnail_url : Option String := none
  status : String := "pending"
  detected_moments : List DetectedMoment := []
  created_at : Option Nat := none
  updated_at : Option Nat := none
deriving DecidableEq

/-- From `schemas.py`: `OverlayText` (Literal fields kept as strings). -/
structure OverlayText where
  content : String
  position : String := "bottom"
  style : String := "caption"
deriving DecidableEq

/-- From `schemas.py`: `ClipRequest`. -/
structure ClipRequest where
  job_id : String
  start_sec : ℚ
  end_sec : ℚ
  overlays : List OverlayText := []
  animation : String := "bounce"
  emoji : Option String := none
deriving DecidableEq

/-- From `schemas.py`: `ClipResult`. -/
structure ClipResult where
  job_id : String
  preview_url : Option String := none
  start_sec : ℚ
  end_sec : ℚ
  overlays : List OverlayText := []
  animation : String
  emoji : Option String := none
  created_at : Option Nat := none
deriving DecidableEq

/-- From `main.py`: the `AnalyzeRequest` body model. -/
structure AnalyzeRequest where
  youtube_url : String
deriving DecidableEq

/-- Modelled from the spec: `VideoJobOut` is imported by `main.py` from
`schemas` but absent from `src/schemas.py`; per the spec it is the VideoJob
payload extended with the store identifier exposed as `id`
("VideoJob + generated id", "maps store identifier to output id field"). -/
structure VideoJobOut where
  id : String
  youtube_url : String
  title : Option String
  author : Option String
  thumbnail_url : Option String
  status : String
  detected_moments : List DetectedMoment
  created_at : Option Nat
  updated_at : Option Nat
deriving DecidableEq

/-- Builds the output payload `{**job.model_dump(), "id": job_id}`. -/
def jobToOut (j : VideoJob) (id : String) : VideoJobOut :=
  ⟨id, j.youtube_url, j.title, j.author, j.thumbnail_url, j.status,
   j.detected_moments, j.created_at, j.updated_at⟩

/-- Result of one handler call: a 200 payload, a raised `HTTPException`
with status code and detail, or an exception left unhandled by the
handler (`fault`). -/
inductive Response (α : Type) where
  | ok : α → Response α
  | httpError : Nat → String → Response α
  | fault : Response α
deriving DecidableEq

/-- `true` exactly on successful (200) results. -/
def Response.isOk {α : Type} : Response α → Bool
  | .ok _ => true
  | _ => false

/-- The `videojob` collection: keys paired with stored documents,
in insertion order. -/
structure Store where
  videojob : List (Nat × VideoJob)
deriving DecidableEq

/-- Little-endian decimal digits of `n`, with explicit fuel so the
definition is structural. -/
def digitsRevFuel : Nat → Nat → List Nat
  | _, 0 => []
  | 0, _ + 1 => []
  | fuel + 1, n + 1 => (n + 1) % 10 :: digitsRevFuel fuel ((n + 1) / 10)

/-- Little-endian decimal digits of `n` (`natDigitsRev 0 = []`). -/
def natDigitsRev (n : Nat) : List Nat := digitsRevFuel n n

/-- Value of a little-endian decimal digit list. -/
def digitsVal : List Nat → Nat
  | [] => 0
  | d :: ds => d + 10 * digitsVal ds

/-- Numeric value of a decimal digit character. -/
def charDigitVal (c : Char) : Nat := c.toNat - 48

/-- Modelled from bson (third-party): `str(ObjectId)` for the identifier
with numeric key `n` — the decimal numeral of `n`. -/
def oidPrint (n : Nat) : String :=
  if n = 0 then "0"
  else String.mk (((natDigitsRev n).map Nat.digitChar).reverse)

/-- Modelled from bson (third-party): `ObjectId(s)` succeeds iff `s` is a
well-formed identifier string, here a nonempty all-digit string, and yields
its numeric key; on any other string the constructor raises. -/
def oidParse (s : String) : Option Nat :=
  if (!s.data.isEmpty) && s.data.all Char.isDigit then
    some (digitsVal ((s.data.map charDigitVal).reverse))
  else none

/-- The key the store generates for the next inserted document: one more
than the largest key in use, hence fresh. -/
def freshKey (st : Store) : Nat :=
  (st.videojob.map Prod.fst).foldr max 0 + 1

/-- Modelled from the spec: `create_document` of the absent `database`
module (§4.1 insert) — inserts the validated document into the collection
and returns the newly generated unique identifier as a string. -/
def create_document (st : Store) (doc : VideoJob) : String × Store :=
  (oidPrint (freshKey st), ⟨st.videojob ++ [(freshKey st, doc)]⟩)

/-- Modelled from the spec: `get_documents` of the absent `database` module
(§4.1 find) — up to `limit` documents in store order, with identifiers. -/
def get_documents (st : Store) (limit : Nat) : List (Nat × VideoJob) :=
  st.videojob.take limit

/-- Model of pymongo `find_one({"_id": k})` on the `videojob` collection:
the stored document with key `k`, or `none` (never an exception). -/
def findOne (st : Store) (k : Nat) : Option VideoJob :=
  List.lookup k st.videojob

/-- `true` iff `pat` occurs as a contiguous run inside `l`. -/
def listContains (pat : List Char) : List Char → Bool
  | [] => pat.isEmpty
  | c :: rest => pat.isPrefixOf (c :: rest) || listContains pat rest

/-- Python's `"pat" in s` substring test. -/
def strContains (s pat : String) : Bool :=
  listContains pat.data s.data

/-- Modelled from pydantic (third-party): the `HttpUrl` validator accepts a
string iff it has an `http://` or `https://` scheme followed by a nonempty
host part. -/
def isHttpUrl (s : String) : Bool :=
  ("http://".data.isPrefixOf s.data && decide (7 < s.data.length)) ||
  ("https://".data.isPrefixOf s.data && decide (8 < s.data.length))

/-- From `main.py` lines 68–72: the three hardcoded demo moments
(0.91, 0.88 and 0.93 written as explicit rationals). -/
def demoMoments : List DetectedMoment :=
  [⟨5, 12, "Intro punch", mkRat 91 100⟩,
   ⟨35, 48, "Key point", mkRat 88 100⟩,
   ⟨120, 136, "Best moment", mkRat 93 100⟩]

/-- From `main.py`: `POST /api/analyze`. Rejects with 400 when the URL is
empty or lacks the substring "youtube"; otherwise builds the `VideoJob` —
whose pydantic `HttpUrl` validation raises an exception the handler does
not catch when the string is not a well-formed URL (`Response.fault`) —
stores it and returns it with the generated id. -/
def analyze_youtube (st : Store) (now : Nat) (req : AnalyzeRequest) :
    Response VideoJobOut × Store :=
  if req.youtube_url == "" || !(strContains req.youtube_url "youtube") then
    (Response.httpError 400 "URL harus berupa link YouTube yang valid", st)
  else if !(isHttpUrl req.youtube_url) then
    (Response.fault, st)
  else
    let job : VideoJob :=
      { youtube_url := req.youtube_url, title := none, author := none,
        thumbnail_url := none, status := "analyzed",
        detected_moments := demoMoments,
        created_at := some now, updated_at := some now }
    let r := create_document st job
    (Response.ok (jobToOut job r.1), r.2)

/-- From `main.py`: `GET /api/jobs` — up to `limit` stored jobs in store
order, each with its identifier exposed as `id`. -/
def list_jobs (st : Store) (limit : Nat) :
    Response (List VideoJobOut) × Store :=
  (Response.ok ((get_documents st limit).map fun p => jobToOut p.2 (oidPrint p.1)), st)

/-- From `main.py`: `GET /api/jobs/job_id`. The try block turns an
`ObjectId` parse failure into 400; a missing document into 404; otherwise
returns the document with its id. -/
def get_job (st : Store) (job_id : String) : Response VideoJobOut × Store :=
  match oidParse job_id with
  | none => (Response.httpError 400 "ID tidak valid", st)
  | some k =>
    match findOne st k with
    | none => (Response.httpError 404 "Job tidak ditemukan", st)
    | some j => (Response.ok (jobToOut j (oidPrint k)), st)

/-- Python's `format(x, ".0f")` rounding to an integer: round half to even.
Phrased on the numerator and denominator so that it evaluates in the
kernel; `ratFloorNum q = ⌊q⌋` and `2 * (q.num - ⌊q⌋ * q.den)` compared with
`q.den` decides whether the fractional part is below, above or at `1/2`. -/
def ratFloorNum (q : ℚ) : ℤ :=
  Int.fdiv q.num q.den

/-- See `ratFloorNum`: round half to even, as `format(x, ".0f")` does. -/
def roundHalfEven (q : ℚ) : ℤ :=
  let f := ratFloorNum q
  let rem2 : ℤ := 2 * (q.num - f * (q.den : ℤ))
  if rem2 < (q.den : ℤ) then f
  else if (q.den : ℤ) < rem2 then f + 1
  else if f % 2 = 0 then f else f + 1

/-- The interpolation `Clip+{start:.0f}-{end:.0f}s` of `main.py` line 131. -/
def previewUrl (s e : ℚ) : String :=
  "https://placehold.co/1280x720?text=Clip+" ++ toString (roundHalfEven s) ++
    "-" ++ toString (roundHalfEven e) ++ "s"

/-- From `main.py`: `POST /api/clip`. Only the `ObjectId` constructor can
raise inside the guarded lookup, so a malformed id gives 400; the lookup
result itself is bound and discarded. Then an invalid time range gives 400,
and otherwise the echoed `ClipResult` is returned (never stored). -/
def create_clip (st : Store) (now : Nat) (req : ClipRequest) :
    Response ClipResult × Store :=
  match oidParse req.job_id with
  | none => (Response.httpError 400 "Job ID tidak valid", st)
  | some k =>
    let _unused := findOne st k
    if req.end_sec ≤ req.start_sec then
      (Response.httpError 400 "end_sec harus lebih besar dari start_sec", st)
    else
      (Response.ok
        { job_id := req.job_id,
          preview_url := some (previewUrl req.start_sec req.end_sec),
          start_sec := req.start_sec, end_sec := req.end_sec,
          overlays := req.overlays, animation := req.animation,
          emoji := req.emoji, created_at := some now }, st)

/-- From `main.py`: `GET /` — static message, touches nothing. -/
def read_root (st : Store) : Response String × Store :=
  (Response.ok "AI Clipper Backend Running", st)

/-- Model of the store adapter's collection listing used by `GET /test`
(read-only): names of the nonempty collections. -/
def list_collection_names (st : Store) : List String :=
  if st.videojob.isEmpty then [] else ["videojob"]

/-- From `main.py`: `GET /test` — diagnostic endpoint; the only store
access is the read-only collection listing, truncated to 10 names. -/
def test_database (st : Store) : Response (List String) × Store :=
  (Response.ok ((list_collection_names st).take 10), st)

/-- A sample stored job used to instantiate universally quantified
theorems on concrete inputs. -/
def sampleJob : VideoJob :=
  ⟨"https://youtube.com/w", none, none, none, "analyzed", demoMoments,
   some 0, some 0⟩

/-- The output payload for `sampleJob` under key 1. -/
def sampleOut : VideoJobOut := jobToOut sampleJob "1"

/-- A one-document store holding `sampleJob` under key 1. -/
def sampleStore : Store := ⟨[(1, sampleJob)]⟩

/-! ### Infrastructure lemmas -/

theorem digitsVal_digitsRevFuel (fuel : Nat) :
    ∀ n : Nat, n ≤ fuel → digitsVal (digitsRevFuel fuel n) = n := by
  induction fuel with
  | zero => intro n hn; interval_cases n; rfl
  | succ f ih =>
    intro n hn
    match n with
    | 0 => rfl
    | m + 1 =>
      have hdiv : (m + 1) / 10 ≤ f := by
        have hlt : (m + 1) / 10 < m + 1 :=
          Nat.div_lt_self (Nat.succ_pos m) (by norm_num)
        omega
      simp only [digitsRevFuel, digitsVal]
      rw [ih _ hdiv]
      exact Nat.mod_add_div (m + 1) 10

theorem digitsRevFuel_lt_ten (fuel : Nat) :
    ∀ n d : Nat, d ∈ digitsRevFuel fuel n → d < 10 := by
  induction fuel with
  | zero => intro n d hd; cases n <;> simp [digitsRevFuel] at hd
  | succ f ih =>
    intro n d hd
    match n with
    | 0 => simp [digitsRevFuel] at hd
    | m + 1 =>
      simp only [digitsRevFuel, List.mem_cons] at hd
      rcases hd with rfl | hd
      · exact Nat.mod_lt _ (by omega)
      · exact ih _ _ hd

theorem digitsRevFuel_ne_nil (fuel n : Nat) (h0 : 0 < n) (hn : n ≤ fuel) :
    digitsRevFuel fuel n ≠ [] := by
  cases n with
  | zero => omega
  | succ m =>
    cases fuel with
    | zero => omega
    | succ f => simp [digitsRevFuel]

theorem charDigitVal_digitChar {d : Nat} (hd : d < 10) :
    charDigitVal (Nat.digitChar d) = d := by
  interval_cases d <;> rfl

theorem digitChar_isDigit {d : Nat} (hd : d < 10) :
    (Nat.digitChar d).isDigit = true := by
  interval_cases d <;> rfl

theorem map_charDigitVal_digitChar (l : List Nat) (h : ∀ d ∈ l, d < 10) :
    l.map (fun d => charDigitVal (Nat.digitChar d)) = l := by
  induction l with
  | nil => rfl
  | cons a t ih =>
    simp only [List.map_cons]
    rw [charDigitVal_digitChar (h a (List.mem_cons_self a t)),
      ih fun d hd => h d (List.mem_cons_of_mem a hd)]

/-- Printed identifiers parse back to their numeric key. -/
theorem oidParse_oidPrint (n : Nat) : oidParse (oidPrint n) = some n := by
  by_cases h0 : n = 0
  · subst h0; rfl
  · have hmem : ∀ d ∈ natDigitsRev n, d < 10 :=
      fun d hd => digitsRevFuel_lt_ten n n d hd
    have hne : natDigitsRev n ≠ [] :=
      digitsRevFuel_ne_nil n n (Nat.pos_of_ne_zero h0) le_rfl
    rw [oidPrint, if_neg h0, oidParse]
    have hdata : (String.mk (((natDigitsRev n).map Nat.digitChar).reverse)).data
        = ((natDigitsRev n).map Nat.digitChar).reverse := rfl
    rw [hdata]
    have hnil : (((natDigitsRev n).map Nat.digitChar).reverse) ≠ [] := by
      intro hcontra
      rw [List.reverse_eq_nil_iff, List.map_eq_nil_iff] at hcontra
      exact hne hcontra
    have hcond : (!((natDigitsRev n).map Nat.digitChar).reverse.isEmpty
        && ((natDigitsRev n).map Nat.digitChar).reverse.all Char.isDigit) = true := by
      rw [Bool.and_eq_true]
      refine ⟨?_, ?_⟩
      · cases hl : (((natDigitsRev n).map Nat.digitChar).reverse) with
        | nil => exact absurd hl hnil
        | cons c cs => rfl
      · rw [List.all_eq_true]
        intro c hc
        rw [List.mem_reverse] at hc
        obtain ⟨d, hd, rfl⟩ := List.mem_map.mp hc
        exact digitChar_isDigit (hmem d hd)
    rw [if_pos hcond]
    congr 1
    rw [List.map_reverse, List.reverse_reverse, List.map_map]
    have hcomp : (charDigitVal ∘ Nat.digitChar) =
        fun d => charDigitVal (Nat.digitChar d) := rfl
    rw [hcomp, map_charDigitVal_digitChar _ hmem]
    exact digitsVal_digitsRevFuel n n le_rfl

theorem le_foldr_max (l : List Nat) (x : Nat) (hx : x ∈ l) :
    x ≤ l.foldr max 0 := by
  induction l with
  | nil => cases hx
  | cons a t ih =>
    rcases List.mem_cons.mp hx with rfl | h
    · exact le_max_left _ _
    · exact le_trans (ih h) (le_max_right _ _)

theorem key_lt_freshKey (st : Store) (p : Nat × VideoJob) (hp : p ∈ st.videojob) :
    p.1 < freshKey st := by
  have hmem : p.1 ∈ st.videojob.map Prod.fst := List.mem_map_of_mem _ hp
  have := le_foldr_max _ _ hmem
  unfold freshKey
  omega

theorem lookup_eq_none_of_forall_ne (l : List (Nat × VideoJob)) (k : Nat)
    (h : ∀ p ∈ l, p.1 ≠ k) : List.lookup k l = none := by
  induction l with
  | nil => rfl
  | cons a t ih =>
    have hne : (k == a.1) = false :=
      beq_eq_false_iff_ne.mpr fun hk => (h a (List.mem_cons_self a t)) hk.symm
    simp only [List.lookup, hne]
    exact ih fun p hp => h p (List.mem_cons_of_mem a hp)

theorem lookup_append_last (l : List (Nat × VideoJob)) (k : Nat) (j : VideoJob)
    (h : ∀ p ∈ l, p.1 ≠ k) : List.lookup k (l ++ [(k, j)]) = some j := by
  induction l with
  | nil => simp [List.lookup]
  | cons a t ih =>
    have hne : (k == a.1) = false :=
      beq_eq_false_iff_ne.mpr fun hk => (h a (List.mem_cons_self a t)) hk.symm
    simp only [List.cons_append, List.lookup, hne]
    exact ih fun p hp => h p (List.mem_cons_of_mem a hp)

/-- The fresh key is absent from the store. -/
theorem lookup_freshKey_eq_none (st : Store) :
    List.lookup (freshKey st) st.videojob = none :=
  lookup_eq_none_of_forall_ne _ _ fun p hp =>
    Nat.ne_of_lt (key_lt_freshKey st p hp)

/-- `ratFloorNum` is the floor of the rational. -/
theorem ratFloorNum_eq_floor (q : ℚ) : ratFloorNum q = ⌊q⌋ := by
  rw [ratFloorNum, Rat.floor_def]
  exact Int.fdiv_eq_ediv _ (Int.natCast_nonneg _)

/-- Rounding half to even always lands on a nearest integer. -/
theorem roundHalfEven_nearest (q : ℚ) :
    |((roundHalfEven q : ℤ) : ℚ) - q| ≤ 1 / 2 := by
  have hdenQ : (0 : ℚ) < (q.den : ℚ) := by
    exact_mod_cast q.den_pos
  have hnum : (q.num : ℚ) = q * (q.den : ℚ) :=
    (div_eq_iff (ne_of_gt hdenQ)).mp (Rat.num_div_den q)
  have hfl : ((⌊q⌋ : ℤ) : ℚ) ≤ q := Int.floor_le q
  have hfu : q < ((⌊q⌋ : ℤ) : ℚ) + 1 := Int.lt_floor_add_one q
  simp only [roundHalfEven, ratFloorNum_eq_floor]
  split_ifs with h1 h2 h3
  · have h1Q : 2 * ((q.num : ℚ) - (⌊q⌋ : ℚ) * (q.den : ℚ)) < (q.den : ℚ) := by
      exact_mod_cast h1
    rw [hnum] at h1Q
    have hmul : (2 * (q - (⌊q⌋ : ℚ))) * (q.den : ℚ) < 1 * (q.den : ℚ) := by
      ring_nf
      ring_nf at h1Q
      linarith
    have hfrac : 2 * (q - (⌊q⌋ : ℚ)) < 1 := (mul_lt_mul_right hdenQ).mp hmul
    rw [abs_le]
    constructor <;> linarith
  · have h2Q : (q.den : ℚ) < 2 * ((q.num : ℚ) - (⌊q⌋ : ℚ) * (q.den : ℚ)) := by
      exact_mod_cast h2
    rw [hnum] at h2Q
    have hmul : 1 * (q.den : ℚ) < (2 * (q - (⌊q⌋ : ℚ))) * (q.den : ℚ) := by
      ring_nf
      ring_nf at h2Q
      linarith
    have hfrac : 1 < 2 * (q - (⌊q⌋ : ℚ)) := (mul_lt_mul_right hdenQ).mp hmul
    rw [abs_le]
    push_cast
    constructor <;> linarith
  all_goals {
    have hEq : (q.den : ℤ) = 2 * (q.num - ⌊q⌋ * (q.den : ℤ)) :=
      le_antisymm (not_lt.mp h1) (not_lt.mp h2)
    have hEqQ : (q.den : ℚ) = 2 * ((q.num : ℚ) - (⌊q⌋ : ℚ) * (q.den : ℚ)) := by
      exact_mod_cast hEq
    rw [hnum] at hEqQ
    have hmul : (2 * (q - (⌊q⌋ : ℚ))) * (q.den : ℚ) = 1 * (q.den : ℚ) := by
      ring_nf
      ring_nf at hEqQ
      linarith
    have hfrac : 2 * (q - (⌊q⌋ : ℚ)) = 1 :=
      mul_right_cancel₀ (ne_of_gt hdenQ) hmul
    rw [abs_le]
    push_cast
    constructor <;> linarith
  }

/-- The preview URL contains the two rounded second counts. -/
theorem previewUrl_decomp (s e : ℚ) :
    (∃ a b, previewUrl s e = a ++ toString (roundHalfEven s) ++ b) ∧
    (∃ a b, previewUrl s e = a ++ toString (roundHalfEven e) ++ b) := by
  constructor
  · refine ⟨"https://placehold.co/1280x720?text=Clip+",
      "-" ++ toString (roundHalfEven e) ++ "s", ?_⟩
    simp [previewUrl, String.append_assoc]
  · refine ⟨"https://placehold.co/1280x720?text=Clip+" ++
      toString (roundHalfEven s) ++ "-", "s", ?_⟩
    simp [previewUrl, String.append_assoc]

/-- Closed form of the analyze handler: reject, fault, or insert-and-ok. -/
theorem analyze_youtube_eq (st : Store) (now : Nat) (req : AnalyzeRequest) :
    analyze_youtube st now req =
      if req.youtube_url = "" ∨ strContains req.youtube_url "youtube" = false then
        (Response.httpError 400 "URL harus berupa link YouTube yang valid", st)
      else if isHttpUrl req.youtube_url = false then
        (Response.fault, st)
      else
        (Response.ok (jobToOut
            ⟨req.youtube_url, none, none, none, "analyzed", demoMoments,
             some now, some now⟩ (oidPrint (freshKey st))),
         ⟨st.videojob ++ [(freshKey st,
            ⟨req.youtube_url, none, none, none, "analyzed", demoMoments,
             some now, some now⟩)]⟩) := by
  by_cases h1 : req.youtube_url = ""
  · have hb : (req.youtube_url == "") = true := beq_iff_eq.mpr h1
    rw [if_pos (Or.inl h1)]
    simp [analyze_youtube, hb]
  · have hb : (req.youtube_url == "") = false := beq_eq_false_iff_ne.mpr h1
    by_cases h2 : strContains req.youtube_url "youtube" = false
    · rw [if_pos (Or.inr h2)]
      simp [analyze_youtube, hb, h2]
    · have h2t : strContains req.youtube_url "youtube" = true := by
        cases hcc : strContains req.youtube_url "youtube"
        · exact absurd hcc h2
        · rfl
      rw [if_neg (by rintro (hc | hc); exact h1 hc; exact h2 hc)]
      by_cases h3 : isHttpUrl req.youtube_url = false
      · rw [if_pos h3]
        simp [analyze_youtube, hb, h2t, h3]
      · have h3t : isHttpUrl req.youtube_url = true := by
          cases hcc : isHttpUrl req.youtube_url
          · exact absurd hcc h3
          · rfl
        rw [if_neg h3]
        simp [analyze_youtube, hb, h2t, h3t, create_document]

/-- Closed form of the clip handler on a well-formed id and a valid range. -/
theorem create_clip_success_eq (st : Store) (now : Nat) (req : ClipRequest)
    (k : Nat) (hk : oidParse req.job_id = some k)
    (hgt : ¬ req.end_sec ≤ req.start_sec) :
    create_clip st now req =
      (Response.ok ⟨req.job_id, some (previewUrl req.start_sec req.end_sec),
        req.start_sec, req.end_sec, req.overlays, req.animation, req.emoji,
        some now⟩, st) := by
  unfold create_clip
  rw [hk]
  simp [hgt]

/-- Fetching a printed key bound to `j` in the store returns `j`. -/
theorem get_job_found (st : Store) (k : Nat) (j : VideoJob)
    (hf : findOne st k = some j) :
    (get_job st (oidPrint k)).1 = Response.ok (jobToOut j (oidPrint k)) := by
  simp [get_job, oidParse_oidPrint, hf]

/-! ### Claims -/

/-- C1: every analyze request whose youtube_url contains the substring
"youtube" and parses as a valid URL succeeds, and the returned VideoJob
has status "analyzed" and exactly three detected moments, in order:
(5, 12, "Intro punch", 0.91), (35, 48, "Key point", 0.88),
(120, 136, "Best moment", 0.93). -/
theorem C1_analyze_success (st : Store) (now : Nat) (req : AnalyzeRequest)
    (h1 : strContains req.youtube_url "youtube" = true)
    (h2 : isHttpUrl req.youtube_url = true) :
    ∃ out st', analyze_youtube st now req = (Response.ok out, st') ∧
      out.status = "analyzed" ∧
      out.detected_moments =
        [⟨5, 12, "Intro punch", mkRat 91 100⟩,
         ⟨35, 48, "Key point", mkRat 88 100⟩,
         ⟨120, 136, "Best moment", mkRat 93 100⟩] := by
  have hne : req.youtube_url ≠ "" := by
    intro h
    rw [h] at h1
    exact absurd h1 (by decide)
  rw [analyze_youtube_eq]
  rw [if_neg (by rintro (hc | hc); exact hne hc; rw [h1] at hc; cases hc)]
  rw [if_neg (by rw [h2]; exact fun hc => by cases hc)]
  exact ⟨_, _, rfl, rfl, rfl⟩

/-- C1 witness: a concrete valid YouTube URL on the empty store. -/
theorem C1_witness :
    strContains "https://www.youtube.com/watch" "youtube" = true ∧
    isHttpUrl "https://www.youtube.com/watch" = true ∧
    ∃ out st',
      analyze_youtube ⟨[]⟩ 0 ⟨"https://www.youtube.com/watch"⟩ =
        (Response.ok out, st') ∧
      out.status = "analyzed" ∧
      out.detected_moments =
        [⟨5, 12, "Intro punch", mkRat 91 100⟩,
         ⟨35, 48, "Key point", mkRat 88 100⟩,
         ⟨120, 136, "Best moment", mkRat 93 100⟩] :=
  ⟨by decide, by decide,
   C1_analyze_success ⟨[]⟩ 0 ⟨"https://www.youtube.com/watch"⟩
     (by decide) (by decide)⟩

/-- C2 counterexample: the identifier "123" is well formed and refers to
no stored job in the empty store, yet create_clip succeeds rather than
failing, because the existence lookup's result is discarded. -/
theorem C2_counterexample :
    oidParse "123" = some 123 ∧
    findOne ⟨[]⟩ 123 = none ∧
    (create_clip ⟨[]⟩ 0 ⟨"123", 1, 2, [], "bounce", none⟩).1 =
      Response.ok ⟨"123",
        some "https://placehold.co/1280x720?text=Clip+1-2s",
        1, 2, [], "bounce", none, some 0⟩ := by
  refine ⟨by decide, rfl, by decide⟩

/-- C2 (amended): create_clip only checks that job_id is a well-formed
identifier; the existence lookup result is bound and discarded, so with a
well-formed id referring to no stored job and a valid time range the
operation still succeeds and returns a ClipResult. -/
theorem C2_no_existence_check (st : Store) (now : Nat) (req : ClipRequest)
    (k : Nat) (hk : oidParse req.job_id = some k)
    (habsent : findOne st k = none)
    (hlt : req.start_sec < req.end_sec) :
    ∃ res, (create_clip st now req).1 = Response.ok res := by
  rw [create_clip_success_eq st now req k hk (not_le.mpr hlt)]
  exact ⟨_, rfl⟩

/-- C2 witness: concrete application of the amended claim. -/
theorem C2_witness :
    oidParse "123" = some 123 ∧ findOne ⟨[]⟩ 123 = none ∧ ((1 : ℚ) < 2) ∧
    ∃ res, (create_clip ⟨[]⟩ 0 ⟨"123", 1, 2, [], "bounce", none⟩).1 =
      Response.ok res :=
  ⟨by decide, rfl, by decide,
   C2_no_existence_check ⟨[]⟩ 0 ⟨"123", 1, 2, [], "bounce", none⟩ 123
     (by decide) rfl (by decide)⟩

/-- C3 counterexample: the request "youtube" passes the substring check
but is not a well-formed URL, so the analyze handler raises an unhandled
fault instead of completing with a result. -/
theorem C3_counterexample :
    strContains "youtube" "youtube" = true ∧
    (analyze_youtube ⟨[]⟩ 0 ⟨"youtube"⟩).1 = Response.fault := by
  refine ⟨by decide, by decide⟩

/-- C3 (amended): every handler other than analyze completes without an
unhandled fault on every input; analyze faults exactly when the
youtube_url contains "youtube" (passing the explicit check) but is not a
well-formed URL — there pydantic validation inside VideoJob construction
raises an error the handler does not catch. -/
theorem C3_fault_characterization :
    (∀ st, (read_root st).1 ≠ Response.fault) ∧
    (∀ st, (test_database st).1 ≠ Response.fault) ∧
    (∀ st limit, (list_jobs st limit).1 ≠ Response.fault) ∧
    (∀ st jid, (get_job st jid).1 ≠ Response.fault) ∧
    (∀ st now req, (create_clip st now req).1 ≠ Response.fault) ∧
    (∀ st now req, (analyze_youtube st now req).1 = Response.fault ↔
      (strContains req.youtube_url "youtube" = true ∧
       isHttpUrl req.youtube_url = false)) := by
  refine ⟨fun st => by simp [read_root], fun st => by simp [test_database],
    fun st limit => by simp [list_jobs], ?_, ?_, ?_⟩
  · intro st jid
    rcases hp : oidParse jid with _ | k
    · simp [get_job, hp]
    · rcases hf : findOne st k with _ | j <;> simp [get_job, hp, hf]
  · intro st now req
    rcases hp : oidParse req.job_id with _ | k
    · simp [create_clip, hp]
    · by_cases hle : req.end_sec ≤ req.start_sec <;>
        simp [create_clip, hp, hle]
  · intro st now req
    rw [analyze_youtube_eq]
    by_cases hr : req.youtube_url = "" ∨
        strContains req.youtube_url "youtube" = false
    · rw [if_pos hr]
      constructor
      · intro hcontra; cases hcontra
      · rintro ⟨hc, -⟩
        rcases hr with hr | hr
        · rw [hr] at hc; cases hc
        · rw [hr] at hc; cases hc
    · rw [if_neg hr]
      push_neg at hr
      obtain ⟨hne, hcont⟩ := hr
      have hct : strContains req.youtube_url "youtube" = true := by
        cases hcc : strContains req.youtube_url "youtube"
        · exact absurd hcc hcont
        · rfl
      by_cases h3 : isHttpUrl req.youtube_url = false
      · rw [if_pos h3]
        exact ⟨fun _ => ⟨hct, h3⟩, fun _ => rfl⟩
      · rw [if_neg h3]
        constructor
        · intro hcontra; cases hcontra
        · rintro ⟨-, hc⟩; exact absurd hc h3

/-- C3 witness: one never-faulting handler and the fault case of analyze. -/
theorem C3_witness :
    (get_job sampleStore "abc").1 ≠ Response.fault ∧
    (analyze_youtube ⟨[]⟩ 0 ⟨"youtube"⟩).1 = Response.fault :=
  ⟨C3_fault_characterization.2.2.2.1 sampleStore "abc",
   (C3_fault_characterization.2.2.2.2.2 ⟨[]⟩ 0 ⟨"youtube"⟩).mpr
     ⟨by decide, by decide⟩⟩

/-- C4: for every clip request with non-negative seconds,
start_sec < end_sec and a well-formed job_id, create_clip succeeds with a
ClipResult echoing job_id, the two seconds, the overlays, the animation
and the emoji, whose preview_url contains the decimal numeral of each of
the two second counts rounded to a nearest integer. -/
theorem C4_create_clip_success (st : Store) (now : Nat) (req : ClipRequest)
    (k : Nat) (hk : oidParse req.job_id = some k)
    (h0s : 0 ≤ req.start_sec) (h0e : 0 ≤ req.end_sec)
    (hlt : req.start_sec < req.end_sec) :
    ∃ res, (create_clip st now req).1 = Response.ok res ∧
      res.job_id = req.job_id ∧ res.start_sec = req.start_sec ∧
      res.end_sec = req.end_sec ∧ res.overlays = req.overlays ∧
      res.animation = req.animation ∧ res.emoji = req.emoji ∧
      ∃ pu, res.preview_url = some pu ∧
        (∃ a b, pu = a ++ toString (roundHalfEven req.start_sec) ++ b) ∧
        (∃ a b, pu = a ++ toString (roundHalfEven req.end_sec) ++ b) ∧
        |((roundHalfEven req.start_sec : ℤ) : ℚ) - req.start_sec| ≤ 1 / 2 ∧
        |((roundHalfEven req.end_sec : ℤ) : ℚ) - req.end_sec| ≤ 1 / 2 := by
  rw [create_clip_success_eq st now req k hk (not_le.mpr hlt)]
  exact ⟨_, rfl, rfl, rfl, rfl, rfl, rfl, rfl,
    previewUrl req.start_sec req.end_sec, rfl,
    (previewUrl_decomp req.start_sec req.end_sec).1,
    (previewUrl_decomp req.start_sec req.end_sec).2,
    roundHalfEven_nearest req.start_sec, roundHalfEven_nearest req.end_sec⟩

/-- C4 witness: concrete clip request on the empty store. -/
theorem C4_witness :
    oidParse "123" = some 123 ∧ ((0 : ℚ) ≤ 1) ∧ ((0 : ℚ) ≤ 2) ∧
      ((1 : ℚ) < 2) ∧
    ∃ res, (create_clip ⟨[]⟩ 7 ⟨"123", 1, 2, [], "bounce", none⟩).1 =
        Response.ok res ∧
      res.job_id = "123" ∧ res.start_sec = 1 ∧ res.end_sec = 2 ∧
      res.overlays = [] ∧ res.animation = "bounce" ∧ res.emoji = none ∧
      ∃ pu, res.preview_url = some pu ∧
        (∃ a b, pu = a ++ toString (roundHalfEven 1) ++ b) ∧
        (∃ a b, pu = a ++ toString (roundHalfEven 2) ++ b) ∧
        |((roundHalfEven (1 : ℚ) : ℤ) : ℚ) - 1| ≤ 1 / 2 ∧
        |((roundHalfEven (2 : ℚ) : ℤ) : ℚ) - 2| ≤ 1 / 2 :=
  ⟨by decide, by decide, by decide, by decide,
   C4_create_clip_success ⟨[]⟩ 7 ⟨"123", 1, 2, [], "bounce", none⟩ 123
     (by decide) (by decide) (by decide) (by decide)⟩

/-- C5: for every clip request with start_sec ≥ end_sec, create_clip
fails with HTTP 400, whatever the state of the job reference (malformed,
well-formed but absent, or present) — the store and request are
universally quantified. -/
theorem C5_create_clip_bad_range (st : Store) (now : Nat)
    (req : ClipRequest) (h : req.end_sec ≤ req.start_sec) :
    ∃ d, (create_clip st now req).1 = Response.httpError 400 d := by
  rcases hp : oidParse req.job_id with _ | k
  · exact ⟨"Job ID tidak valid", by simp [create_clip, hp]⟩
  · exact ⟨"end_sec harus lebih besar dari start_sec",
      by simp [create_clip, hp, h]⟩

/-- C5 witness: the three job-reference cases at start 5, end 2. -/
theorem C5_witness :
    ((2 : ℚ) ≤ 5) ∧
    (∃ d, (create_clip ⟨[]⟩ 0 ⟨"abc", 5, 2, [], "bounce", none⟩).1 =
      Response.httpError 400 d) ∧
    (∃ d, (create_clip ⟨[]⟩ 0 ⟨"123", 5, 2, [], "bounce", none⟩).1 =
      Response.httpError 400 d) ∧
    (∃ d, (create_clip sampleStore 0 ⟨"1", 5, 2, [], "bounce", none⟩).1 =
      Response.httpError 400 d) :=
  ⟨by decide,
   C5_create_clip_bad_range ⟨[]⟩ 0 ⟨"abc", 5, 2, [], "bounce", none⟩
     (by decide),
   C5_create_clip_bad_range ⟨[]⟩ 0 ⟨"123", 5, 2, [], "bounce", none⟩
     (by decide),
   C5_create_clip_bad_range sampleStore 0 ⟨"1", 5, 2, [], "bounce", none⟩
     (by decide)⟩

/-- C6: every analyze request whose youtube_url is empty or lacks the
substring "youtube" fails with HTTP 400 and the Indonesian detail message,
returning no VideoJob and leaving the store as it was. -/
theorem C6_analyze_invalid_url (st : Store) (now : Nat)
    (req : AnalyzeRequest)
    (h : req.youtube_url = "" ∨
      strContains req.youtube_url "youtube" = false) :
    analyze_youtube st now req =
      (Response.httpError 400 "URL harus berupa link YouTube yang valid",
       st) := by
  rw [analyze_youtube_eq, if_pos h]

/-- C6 witness: a URL without the substring "youtube". -/
theorem C6_witness :
    strContains "https://vimeo.com/x" "youtube" = false ∧
    analyze_youtube ⟨[]⟩ 0 ⟨"https://vimeo.com/x"⟩ =
      (Response.httpError 400 "URL harus berupa link YouTube yang valid",
       ⟨[]⟩) :=
  ⟨by decide,
   C6_analyze_invalid_url ⟨[]⟩ 0 ⟨"https://vimeo.com/x"⟩
     (Or.inr (by decide))⟩

/-- C7: a job created by a successful analyze call, fetched through
get-job with the identifier analyze returned, comes back with identical
youtube_url, status and detected_moments (order preserved). -/
theorem C7_analyze_get_job_roundtrip (st : Store) (now : Nat)
    (req : AnalyzeRequest) (out : VideoJobOut) (st' : Store)
    (h : analyze_youtube st now req = (Response.ok out, st')) :
    ∃ out', (get_job st' out.id).1 = Response.ok out' ∧
      out'.youtube_url = out.youtube_url ∧
      out'.status = out.status ∧
      out'.detected_moments = out.detected_moments := by
  rw [analyze_youtube_eq] at h
  split_ifs at h with hc1 hc2
  · exact absurd (congrArg Prod.fst h) (by simp)
  · exact absurd (congrArg Prod.fst h) (by simp)
  · injection h with hfst hsnd
    injection hfst with hout
    subst hsnd
    refine ⟨out, ?_, rfl, rfl, rfl⟩
    rw [← hout]
    exact get_job_found _ (freshKey st) _
      (lookup_append_last st.videojob (freshKey st) _ fun p hp =>
        Nat.ne_of_lt (key_lt_freshKey st p hp))

/-- C7 witness: analyze on the empty store, then get-job with the id "1"
it returned. -/
theorem C7_witness :
    ∃ out', (get_job sampleStore sampleOut.id).1 = Response.ok out' ∧
      out'.youtube_url = sampleOut.youtube_url ∧
      out'.status = sampleOut.status ∧
      out'.detected_moments = sampleOut.detected_moments :=
  C7_analyze_get_job_roundtrip ⟨[]⟩ 0 ⟨"https://youtube.com/w"⟩
    sampleOut sampleStore (by rfl)

/-- C8: get-job returns 400 "ID tidak valid" (and in particular not a 500
fault) on a malformed identifier, 404 "Job tidak ditemukan" on a
well-formed identifier bound to no document, and the stored job with its
identifier otherwise. -/
theorem C8_get_job_cases (st : Store) (jid : String) :
    (oidParse jid = none →
      (get_job st jid).1 = Response.httpError 400 "ID tidak valid") ∧
    (∀ k, oidParse jid = some k → findOne st k = none →
      (get_job st jid).1 = Response.httpError 404 "Job tidak ditemukan") ∧
    (∀ k j, oidParse jid = some k → findOne st k = some j →
      (get_job st jid).1 = Response.ok (jobToOut j (oidPrint k))) := by
  refine ⟨?_, ?_, ?_⟩
  · intro hp; simp [get_job, hp]
  · intro k hp hf; simp [get_job, hp, hf]
  · intro k j hp hf; simp [get_job, hp, hf]

/-- C8 witness: the three cases on the one-document store. -/
theorem C8_witness :
    (oidParse "abc" = none ∧
      (get_job sampleStore "abc").1 =
        Response.httpError 400 "ID tidak valid") ∧
    (oidParse "2" = some 2 ∧ findOne sampleStore 2 = none ∧
      (get_job sampleStore "2").1 =
        Response.httpError 404 "Job tidak ditemukan") ∧
    (oidParse "1" = some 1 ∧ findOne sampleStore 1 = some sampleJob ∧
      (get_job sampleStore "1").1 =
        Response.ok (jobToOut sampleJob (oidPrint 1))) :=
  ⟨⟨by decide, (C8_get_job_cases sampleStore "abc").1 (by decide)⟩,
   ⟨by decide, rfl,
    (C8_get_job_cases sampleStore "2").2.1 2 (by decide) rfl⟩,
   ⟨by decide, rfl,
    (C8_get_job_cases sampleStore "1").2.2 1 sampleJob (by decide) rfl⟩⟩

/-- C9: no endpoint modifies or deletes an existing stored document. The
read endpoints and create_clip leave the store untouched; analyze either
leaves it untouched or appends exactly one new document under a fresh key,
so every document present before any request is present (unchanged, in
place) after it. -/
theorem C9_store_frame :
    (∀ st, (read_root st).2 = st) ∧
    (∀ st, (test_database st).2 = st) ∧
    (∀ st limit, (list_jobs st limit).2 = st) ∧
    (∀ st jid, (get_job st jid).2 = st) ∧
    (∀ st now req, (create_clip st now req).2 = st) ∧
    (∀ st now req,
      (analyze_youtube st now req).2 = st ∨
      ∃ j, (analyze_youtube st now req).2.videojob =
        st.videojob ++ [(freshKey st, j)]) ∧
    (∀ st now req p, p ∈ st.videojob →
      p ∈ (analyze_youtube st now req).2.videojob) := by
  have hana : ∀ (st : Store) (now : Nat) (req : AnalyzeRequest),
      (analyze_youtube st now req).2 = st ∨
      ∃ j, (analyze_youtube st now req).2.videojob =
        st.videojob ++ [(freshKey st, j)] := by
    intro st now req
    rw [analyze_youtube_eq]
    split_ifs
    · exact Or.inl rfl
    · exact Or.inl rfl
    · exact Or.inr ⟨_, rfl⟩
  refine ⟨fun st => rfl, fun st => rfl, fun st limit => rfl, ?_, ?_, hana,
    ?_⟩
  · intro st jid
    rcases hp : oidParse jid with _ | k
    · simp [get_job, hp]
    · rcases hf : findOne st k with _ | j <;> simp [get_job, hp, hf]
  · intro st now req
    rcases hp : oidParse req.job_id with _ | k
    · simp [create_clip, hp]
    · by_cases hle : req.end_sec ≤ req.start_sec <;>
        simp [create_clip, hp, hle]
  · intro st now req p hp
    rcases hana st now req with heq | ⟨j, heq⟩
    · rw [heq]; exact hp
    · rw [heq]; exact List.mem_append_left _ hp

/-- C9 witness: concrete frame facts on the one-document store. -/
theorem C9_witness :
    (get_job sampleStore "abc").2 = sampleStore ∧
    (1, sampleJob) ∈ sampleStore.videojob ∧
    (1, sampleJob) ∈
      (analyze_youtube sampleStore 0 ⟨"https://youtube.com/w"⟩).2.videojob :=
  ⟨C9_store_frame.2.2.2.1 sampleStore "abc",
   List.Mem.head _,
   C9_store_frame.2.2.2.2.2.2 sampleStore 0 ⟨"https://youtube.com/w"⟩
     (1, sampleJob) (List.Mem.head _)⟩

/-- C10: a rejected analyze request (HTTP 400) inserts nothing — the
store after the failed call is the store before it. -/
theorem C10_analyze_atomic_on_reject (st : Store) (now : Nat)
    (req : AnalyzeRequest)
    (h : ∃ d, (analyze_youtube st now req).1 = Response.httpError 400 d) :
    (analyze_youtube st now req).2 = st := by
  obtain ⟨d, hd⟩ := h
  rw [analyze_youtube_eq] at hd ⊢
  split_ifs at hd ⊢ <;> rfl

/-- C10 witness: the rejected request "https://vimeo.com/x". -/
theorem C10_witness :
    (analyze_youtube ⟨[]⟩ 0 ⟨"https://vimeo.com/x"⟩).2 = ⟨[]⟩ :=
  C10_analyze_atomic_on_reject ⟨[]⟩ 0 ⟨"https://vimeo.com/x"⟩
    ⟨"URL harus berupa link YouTube yang valid", by decide⟩

end Clipper
